import Mathlib

/-!
Verification development for the Wall Street Beater price-fetcher server
(`src/app/server.js`).  The route handlers and fetch functions are embedded
shallowly: JavaScript numbers are modelled as rationals (`ℚ`), each call to
`Math.random()` is modelled as an explicit rational parameter in `[0, 1)`,
`Date.now()` as an explicit natural-number timestamp, and the upstream Yahoo
client as an abstract function producing either an error string or a quote.
-/

namespace WSB

/-- JS `\s` for the ASCII range (the characters relevant to query strings). -/
def jsWhitespace (c : Char) : Bool :=
  c = ' ' || c = '\t' || c = '\n' || c = '\r' || c = '\x0b' || c = '\x0c'

/-- A character matched by the character class `[,\s]` of the split regex in
`server.js` line 93. -/
def isSepChar (c : Char) : Bool :=
  c = ',' || jsWhitespace c

/-- One step of the run-splitting fold: the Bool records whether the character
immediately to the right was a separator, so that a maximal run of separators
produces a single field boundary, as `String.prototype.split` does with the
regex `[,\s]+`. -/
def splitStep (p : Char → Bool) (c : Char) : Bool × List (List Char) → Bool × List (List Char)
  | (inRun, acc) =>
    if p c then
      if inRun then (true, acc) else (true, [] :: acc)
    else
      match acc with
      | [] => (false, [[c]])
      | t :: ts => (false, (c :: t) :: ts)

/-- JS `str.split(/[,\s]+/)`: fields between maximal nonempty runs of
separator characters, keeping the (possibly empty) fields before the first
run and after the last one. -/
def splitOnRuns (p : Char → Bool) (l : List Char) : List (List Char) :=
  (l.foldr (splitStep p) (false, [[]])).2

/-- JS `String.prototype.toUpperCase` (character-wise, ASCII range). -/
def jsToUpper (s : String) : String :=
  String.mk (s.data.map Char.toUpper)

/-- JS `String.prototype.toLowerCase` (character-wise, ASCII range). -/
def jsToLower (s : String) : String :=
  String.mk (s.data.map Char.toLower)

/-- JS `String.prototype.trim` on a character list (ASCII whitespace). -/
def trimChars (l : List Char) : List Char :=
  ((l.dropWhile jsWhitespace).reverse.dropWhile jsWhitespace).reverse

/-- `server.js` line 93:
`symbols.split(/[,\s]+/).map(s => s.trim().toUpperCase()).filter(s => s.length > 0)`. -/
def parseSymbols (s : String) : List String :=
  ((splitOnRuns isSepChar s.data).map
    (fun cs => String.mk ((trimChars cs).map Char.toUpper))).filter
    (fun t => t.length > 0)

/-- A normalized quote record (`Quote` in the spec's data model). -/
structure Quote where
  symbol : String
  price : ℚ
  currency : String
  timestamp : ℕ
  source : String
  change_24h : Option ℚ
  change_percent_24h : Option ℚ
deriving DecidableEq

/-- JS `Number.prototype.toFixed(2)` (re-parsed by `parseFloat`), idealized
over ℚ: round to the nearest multiple of 1/100, ties toward +∞ — matching
the ECMAScript rule that of two closest candidates the larger is picked. -/
def toFixed2 (q : ℚ) : ℚ :=
  (round (q * 100) : ℤ) / 100

/-- The `basePrices` object literal of `fetchMockPrice` (`server.js`
lines 194 – 207), as a finite key/value table. -/
def basePricesTable : List (String × ℚ) :=
  [("AAPL", 150), ("TSLA", 200), ("MSFT", 300), ("GOOGL", 2500),
   ("AMZN", 3000), ("NVDA", 400), ("META", 250), ("NFLX", 400),
   ("JPM", 150), ("BAC", 30), ("WFC", 40), ("GS", 350)]

/-- `basePrices[symbol]`: property access on the object literal. -/
def basePrices (s : String) : Option ℚ :=
  basePricesTable.lookup s

/-- `basePrices[symbol] || (100.0 + (symbol.length * 10))` (`server.js`
line 209; every table entry is nonzero, so `||` is exactly the fallback on
a missing key). -/
def mockBasePrice (s : String) : ℚ :=
  (basePrices s).getD (100 + 10 * s.length)

/-- `fetchMockPrice` (`server.js` lines 192 – 227).  `r1` models the
`Math.random()` call producing the price variation, `r2` the independent
one producing the 24h change; `now` models `Math.floor(Date.now() / 1000)`. -/
def fetchMockPrice (symbol : String) (now : ℕ) (r1 r2 : ℚ) : Quote :=
  let basePrice := mockBasePrice symbol
  let variation := (r1 - 1/2) * (1/10)
  let price := basePrice * (1 + variation)
  let change24h := (r2 - 1/2) * 10
  let changePercent24h := change24h / price * 100
  { symbol := symbol
    price := toFixed2 price
    currency := "USD"
    timestamp := now
    source := "mock"
    change_24h := some (toFixed2 change24h)
    change_percent_24h := some (toFixed2 changePercent24h) }

/-- `fetchPrice` (`server.js` lines 132 – 142): dispatch on the lowercased
source, with the unknown-source default falling back to the mock generator.
`yahoo` abstracts `fetchYahooPrice` (an upstream call that may fail). -/
def fetchPriceM (yahoo : String → Except String Quote) (now : ℕ) (r1 r2 : ℚ)
    (symbol source : String) : Except String Quote :=
  match jsToLower source with
  | "yahoo" => yahoo symbol
  | "mock" => .ok (fetchMockPrice symbol now r1 r2)
  | _ => .ok (fetchMockPrice symbol now r1 r2)

/-- `req.query.source || 'yahoo'` (`server.js` lines 63 and 83): an absent
or empty (falsy) `source` parameter defaults to `"yahoo"`. -/
def sourceOrDefault : Option String → String
  | none => "yahoo"
  | some s => if s = "" then "yahoo" else s

/-- Outcome of the single-price endpoint `GET /price/:symbol`. -/
inductive PriceResult
  | ok (body : Quote)
  | badRequest (error message : String)
deriving DecidableEq

/-- HTTP status of a `PriceResult` (`res.json` defaults to 200;
the failure path sets `res.status(400)`, `server.js` line 73). -/
def PriceResult.status : PriceResult → ℕ
  | .ok _ => 200
  | .badRequest _ _ => 400

/-- The `GET /price/:symbol` handler (`server.js` lines 61 – 78).  `fetch`
abstracts `fetchPrice(symbol, source)` together with its outcome (upstream
responses and random draws). -/
def handlePrice (fetch : String → String → Except String Quote)
    (symbolParam : String) (sourceQ : Option String) : PriceResult :=
  let symbol := jsToUpper symbolParam
  let source := sourceOrDefault sourceQ
  match fetch symbol source with
  | .ok q => .ok q
  | .error e =>
      .badRequest "PRICE_FETCH_FAILED"
        ("Failed to fetch price for " ++ symbol ++ ": " ++ e)

/-- The `results.forEach` classification loop of `GET /prices`
(`server.js` lines 106 – 119): each settled per-symbol outcome is pushed,
in index order, into exactly one of the `prices` and `errors` accumulators;
a failure for symbol `s` with message `e` is recorded as the string
`s ++ ": " ++ e` (line 112).  The promises never reject (a `.catch` is
attached at dispatch, line 98), so the `rejected` branch is dead code. -/
def classify (fetch : String → Except String Quote) :
    List String → List Quote × List String
  | [] => ([], [])
  | s :: rest =>
    let r := classify fetch rest
    match fetch s with
    | .ok q => (q :: r.1, r.2)
    | .error e => (r.1, (s ++ ": " ++ e) :: r.2)

/-- The JSON body of a successful `GET /prices` response (`server.js`
lines 121 – 128).  `errors` is `none` when the handler writes `undefined`,
which `JSON.stringify` drops from the body. -/
structure PricesBody where
  success : Bool
  prices : List Quote
  errors : Option (List String)
  total_requested : ℕ
  total_successful : ℕ
  total_failed : ℕ
deriving DecidableEq

/-- Outcome of the multi-price endpoint `GET /prices`. -/
inductive PricesResult
  | ok (body : PricesBody)
  | badRequest (error message : String)
deriving DecidableEq

/-- HTTP status of a `PricesResult` (400 set on line 86, otherwise the
`res.json` default of 200). -/
def PricesResult.status : PricesResult → ℕ
  | .ok _ => 200
  | .badRequest _ _ => 400

/-- The `errors` field of the body, when the response is a success body. -/
def PricesResult.errorsField : PricesResult → Option (List String)
  | .ok b => b.errors
  | .badRequest _ _ => none

/-- The message of the 400 response for a missing `symbols` parameter
(`server.js` line 88). -/
def missingSymbolsMessage : String :=
  "Missing \x27symbols\x27 parameter. Use comma or space-separated values like: ?symbols=AAPL,TSLA,MSFT or ?symbols=AAPL TSLA MSFT"

/-- The `GET /prices` handler (`server.js` lines 81 – 129).  The first
component of the result is the list of symbols actually dispatched to
`fetchPrice` (the `symbolList.map(...)` on line 97); the second is the HTTP
response.  `symbolsQ` is the raw `symbols` query parameter (`none` when
absent); JS `!symbols` is also true for the empty string. -/
def handlePrices (fetch : String → Except String Quote)
    (symbolsQ : Option String) : List String × PricesResult :=
  match symbolsQ with
  | none => ([], .badRequest "MISSING_SYMBOLS" missingSymbolsMessage)
  | some s =>
    if s = "" then ([], .badRequest "MISSING_SYMBOLS" missingSymbolsMessage)
    else
      let symbolList := parseSymbols s
      let r := classify fetch symbolList
      (symbolList,
        .ok { success := decide (r.1.length > 0)
              prices := r.1
              errors := if r.2.length > 0 then some r.2 else none
              total_requested := symbolList.length
              total_successful := r.1.length
              total_failed := r.2.length })

/-- The static groups table of `GET /groups` (`server.js` lines 24 – 55). -/
structure StockGroup where
  name : String
  symbols : List String
  description : String
deriving DecidableEq

/-- The `groups` object literal, as an ordered key/value list. -/
def groups : List (String × StockGroup) :=
  [ ("tech",
     { name := "Tech Giants"
       symbols := ["AAPL", "MSFT", "GOOGL", "META", "NVDA", "NFLX", "AMZN", "TSLA"]
       description := "Major technology companies" }),
    ("finance",
     { name := "Financial Sector"
       symbols := ["JPM", "BAC", "WFC", "GS", "MS", "C", "AXP", "V"]
       description := "Banking and financial services" }),
    ("healthcare",
     { name := "Healthcare"
       symbols := ["JNJ", "PFE", "UNH", "ABBV", "MRK", "TMO", "ABT", "LLY"]
       description := "Pharmaceutical and healthcare companies" }),
    ("energy",
     { name := "Energy Sector"
       symbols := ["XOM", "CVX", "COP", "EOG", "SLB", "KMI", "PSX", "VLO"]
       description := "Oil, gas, and energy companies" }),
    ("retail",
     { name := "Retail & Consumer"
       symbols := ["WMT", "TGT", "COST", "HD", "LOW", "NKE", "SBUX", "MCD"]
       description := "Retail and consumer goods" }),
    ("crypto",
     { name := "Crypto-Related"
       symbols := ["COIN", "MSTR", "RIOT", "MARA", "HUT", "BITF", "CAN", "HIVE"]
       description := "Cryptocurrency and blockchain companies" }) ]

/-- An incoming HTTP request, as far as the handlers consult it. -/
structure HttpRequest where
  path : String
  query : List (String × String)
deriving DecidableEq

/-- The `GET /groups` handler (`server.js` lines 23 – 58): it never reads
the request and always answers 200 with the static table. -/
def handleGroups (_req : HttpRequest) : ℕ × List (String × StockGroup) :=
  (200, groups)

/-- Fixture: a per-symbol fetch outcome in which every symbol succeeds with
a deterministic mock quote (used to instantiate universally quantified
theorems at concrete inputs). -/
def cAllOk (s : String) : Except String Quote :=
  .ok (fetchMockPrice s 0 (1/2) (1/2))

/-- Fixture: a fetch outcome in which exactly the symbol `"BAD"` fails. -/
def cOneBad (s : String) : Except String Quote :=
  if s = "BAD" then .error "Yahoo API error: timeout of 5000ms exceeded"
  else .ok (fetchMockPrice s 0 (1/2) (1/2))

/-- Fixture: an upstream Yahoo client that always fails. -/
def cYahooDown (_s : String) : Except String Quote :=
  .error "Yahoo API error: network down"

/-- Fixture: a two-argument fetch outcome (symbol, source) in which exactly
the symbol `"BAD"` fails. -/
def cFetchBoth (s _src : String) : Except String Quote :=
  if s = "BAD" then .error "Yahoo API error: network down"
  else .ok (fetchMockPrice s 0 (1/2) (1/2))

/-- Each dispatched symbol lands in exactly one of the two accumulators, so
their lengths add up to the batch size. -/
lemma classify_length (f : String → Except String Quote) :
    ∀ l : List String, (classify f l).1.length + (classify f l).2.length = l.length
  | [] => rfl
  | s :: rest => by
    have ih := classify_length f rest
    cases hf : f s with
    | ok q => simp only [classify, hf, List.length_cons]; omega
    | error e => simp only [classify, hf, List.length_cons]; omega

/-- A failing symbol contributes its formatted message to the errors list. -/
lemma classify_error_mem (f : String → Except String Quote) (a e : String) :
    ∀ l : List String, a ∈ l → f a = .error e →
      (a ++ ": " ++ e) ∈ (classify f l).2
  | [], h, _ => absurd h (List.not_mem_nil a)
  | s :: rest, h, hf => by
    rcases List.mem_cons.mp h with rfl | hmem
    · simp [classify, hf]
    · have ih := classify_error_mem f a e rest hmem hf
      cases hfs : f s with
      | ok q => simpa [classify, hfs] using ih
      | error e2 => simp [classify, hfs, ih]

/-- A succeeding symbol contributes its quote to the prices list. -/
lemma classify_ok_mem (f : String → Except String Quote) (b : String) (q : Quote) :
    ∀ l : List String, b ∈ l → f b = .ok q →
      q ∈ (classify f l).1
  | [], h, _ => absurd h (List.not_mem_nil b)
  | s :: rest, h, hf => by
    rcases List.mem_cons.mp h with rfl | hmem
    · simp [classify, hf]
    · have ih := classify_ok_mem f b q rest hmem hf
      cases hfs : f s with
      | ok q2 => simp [classify, hfs, ih]
      | error e2 => simpa [classify, hfs] using ih

/-- A successful association-list lookup yields one of the stored values. -/
lemma lookup_mem_snd {α β : Type} [BEq α] (l : List (α × β)) (a : α) (v : β) :
    l.lookup a = some v → v ∈ l.map Prod.snd := by
  induction l with
  | nil => intro h; simp [List.lookup] at h
  | cons p rest ih =>
    obtain ⟨k, b⟩ := p
    intro h
    simp only [List.lookup] at h
    cases hak : (a == k) with
    | true =>
      rw [hak] at h
      simp only [Option.some.injEq] at h
      subst h
      simp
    | false =>
      rw [hak] at h
      simpa using Or.inr (ih h)

/-- The only values the base-price table can produce. -/
lemma basePrices_values (s : String) (v : ℚ) (h : basePrices s = some v) :
    v = 150 ∨ v = 200 ∨ v = 300 ∨ v = 2500 ∨ v = 3000 ∨ v = 400 ∨
    v = 250 ∨ v = 30 ∨ v = 40 ∨ v = 350 := by
  unfold basePrices at h
  have hmem := lookup_mem_snd basePricesTable s v h
  simp only [basePricesTable, List.map_cons, List.map_nil, List.mem_cons,
    List.not_mem_nil, or_false] at hmem
  tauto

/-- Every base price — table entry or length fallback — is a positive
multiple of ten. -/
lemma mockBasePrice_ten (s : String) :
    ∃ k : ℕ, mockBasePrice s = 10 * k ∧ 0 < k := by
  unfold mockBasePrice
  cases hbp : basePrices s with
  | none =>
    refine ⟨10 + s.length, ?_, by omega⟩
    simp only [Option.getD_none]
    push_cast
    ring
  | some v =>
    rcases basePrices_values s v hbp with rfl | rfl | rfl | rfl | rfl | rfl | rfl | rfl | rfl | rfl
    exacts [⟨15, by norm_num [Option.getD_some], by norm_num⟩,
      ⟨20, by norm_num [Option.getD_some], by norm_num⟩,
      ⟨30, by norm_num [Option.getD_some], by norm_num⟩,
      ⟨250, by norm_num [Option.getD_some], by norm_num⟩,
      ⟨300, by norm_num [Option.getD_some], by norm_num⟩,
      ⟨40, by norm_num [Option.getD_some], by norm_num⟩,
      ⟨25, by norm_num [Option.getD_some], by norm_num⟩,
      ⟨3, by norm_num [Option.getD_some], by norm_num⟩,
      ⟨4, by norm_num [Option.getD_some], by norm_num⟩,
      ⟨35, by norm_num [Option.getD_some], by norm_num⟩]

/-- The mock price, after the ±5% perturbation and the two-decimal
rounding, stays within 95% – 105% of the symbol's base price whenever the
random draw lies in `[0, 1)` as `Math.random()` guarantees. -/
lemma mockPrice_bounds (symbol : String) (now : ℕ) (r1 r2 : ℚ)
    (h0 : 0 ≤ r1) (h1 : r1 < 1) :
    95/100 * mockBasePrice symbol ≤ (fetchMockPrice symbol now r1 r2).price ∧
    (fetchMockPrice symbol now r1 r2).price ≤ 105/100 * mockBasePrice symbol := by
  obtain ⟨k, hb, hk⟩ := mockBasePrice_ten symbol
  have hkq : (0:ℚ) < k := by exact_mod_cast hk
  have hprice : (fetchMockPrice symbol now r1 r2).price
      = toFixed2 (mockBasePrice symbol * (1 + (r1 - 1/2) * (1/10))) := rfl
  rw [hprice, hb]
  set x : ℚ := (10 * (k:ℚ)) * (1 + (r1 - 1/2) * (1/10)) with hx
  have hxval : x * 100 = 950 * k + 100 * k * r1 := by rw [hx]; ring
  have h100k : (0:ℚ) < 100 * k := by linarith
  have h4 : (0:ℚ) ≤ 100 * k * r1 := mul_nonneg (by positivity) h0
  have h5 : 100 * (k:ℚ) * r1 < 100 * k := by
    have := mul_lt_mul_of_pos_left h1 h100k
    linarith
  have hlow : (950 * (k:ℚ)) ≤ x * 100 := by linarith
  have hhigh : x * 100 < 1050 * k := by linarith
  have hr : round (x * 100) = ⌊x * 100 + 1/2⌋ := round_eq _
  have h2 : (950 * (k:ℤ)) ≤ round (x * 100) := by
    rw [hr]
    apply Int.le_floor.mpr
    push_cast
    linarith
  have h3 : round (x * 100) ≤ (1050 * (k:ℤ)) := by
    rw [hr]
    have hlt : ⌊x * 100 + 1/2⌋ < (1050 * (k:ℤ)) + 1 := by
      apply Int.floor_lt.mpr
      push_cast
      linarith
    omega
  unfold toFixed2
  have h2q : ((950 * (k:ℤ) : ℤ) : ℚ) ≤ ((round (x * 100) : ℤ) : ℚ) := by
    exact_mod_cast h2
  have h3q : ((round (x * 100) : ℤ) : ℚ) ≤ ((1050 * (k:ℤ) : ℤ) : ℚ) := by
    exact_mod_cast h3
  push_cast at h2q h3q
  constructor
  · linarith
  · linarith

/-- C1: for every GET /prices request with a non-empty symbols parameter,
`total_requested` is the number of parsed symbols, `total_successful` is the
length of the prices list, `total_failed` is the length of the errors list,
and `total_successful + total_failed = total_requested` — each dispatched
symbol is classified into exactly one of the two lists. -/
theorem prices_totals_consistent (fetch : String → Except String Quote)
    (s : String) (hs : s ≠ "") :
    ∃ body, (handlePrices fetch (some s)).2 = PricesResult.ok body ∧
      body.total_requested = (parseSymbols s).length ∧
      body.total_successful = body.prices.length ∧
      body.total_failed = (classify fetch (parseSymbols s)).2.length ∧
      body.total_successful + body.total_failed = body.total_requested := by
  simp only [handlePrices, if_neg hs]
  exact ⟨_, rfl, rfl, rfl, rfl, classify_length fetch (parseSymbols s)⟩

/-- Witness for C1 at the concrete request `symbols=AAPL,TSLA` with every
fetch succeeding. -/
theorem prices_totals_consistent_witness :
    "AAPL,TSLA" ≠ "" ∧
    (∃ body, (handlePrices cAllOk (some "AAPL,TSLA")).2 = PricesResult.ok body ∧
      body.total_requested = (parseSymbols "AAPL,TSLA").length ∧
      body.total_successful = body.prices.length ∧
      body.total_failed = (classify cAllOk (parseSymbols "AAPL,TSLA")).2.length ∧
      body.total_successful + body.total_failed = body.total_requested) :=
  ⟨by decide, prices_totals_consistent cAllOk "AAPL,TSLA" (by decide)⟩

/-- C2: in a multi-symbol batch with at least one failing and at least one
succeeding symbol, the failure is recorded as a formatted string in the
errors list, the success contributes its quote to the prices list, both
lists are populated, and every symbol of the batch is still classified
(the batch is never aborted). -/
theorem batch_failures_independent (fetch : String → Except String Quote)
    (syms : List String) (a b ea : String) (qb : Quote)
    (ha : a ∈ syms) (hae : fetch a = .error ea)
    (hb : b ∈ syms) (hbq : fetch b = .ok qb) :
    (a ++ ": " ++ ea) ∈ (classify fetch syms).2 ∧
    qb ∈ (classify fetch syms).1 ∧
    (classify fetch syms).2 ≠ [] ∧
    (classify fetch syms).1 ≠ [] ∧
    (classify fetch syms).1.length + (classify fetch syms).2.length = syms.length := by
  have h1 := classify_error_mem fetch a ea syms ha hae
  have h2 := classify_ok_mem fetch b qb syms hb hbq
  exact ⟨h1, h2, List.ne_nil_of_mem h1, List.ne_nil_of_mem h2,
    classify_length fetch syms⟩

/-- Witness for C2: the batch `["AAPL", "BAD"]` under a fetch outcome where
exactly `"BAD"` fails with an upstream timeout. -/
theorem batch_failures_independent_witness :
    "BAD" ∈ ["AAPL", "BAD"] ∧
    cOneBad "BAD" = Except.error "Yahoo API error: timeout of 5000ms exceeded" ∧
    "AAPL" ∈ ["AAPL", "BAD"] ∧
    cOneBad "AAPL" = Except.ok (fetchMockPrice "AAPL" 0 (1/2) (1/2)) ∧
    (("BAD" ++ ": " ++ "Yahoo API error: timeout of 5000ms exceeded")
        ∈ (classify cOneBad ["AAPL", "BAD"]).2 ∧
      fetchMockPrice "AAPL" 0 (1/2) (1/2) ∈ (classify cOneBad ["AAPL", "BAD"]).1 ∧
      (classify cOneBad ["AAPL", "BAD"]).2 ≠ [] ∧
      (classify cOneBad ["AAPL", "BAD"]).1 ≠ [] ∧
      (classify cOneBad ["AAPL", "BAD"]).1.length
          + (classify cOneBad ["AAPL", "BAD"]).2.length = ["AAPL", "BAD"].length) :=
  ⟨by decide, rfl, by decide, rfl,
    batch_failures_independent cOneBad ["AAPL", "BAD"] "BAD" "AAPL"
      "Yahoo API error: timeout of 5000ms exceeded"
      (fetchMockPrice "AAPL" 0 (1/2) (1/2)) (by decide) rfl (by decide) rfl⟩

/-- C3: the mock generator never fails (selecting source `mock` always
yields an `ok` quote), its price stays within ±5% of the symbol's base
price when the random draw lies in `[0, 1)`, and for symbols outside the
lookup table the base price is `100 + 10 ×` the symbol's length. -/
theorem mock_never_fails_price_bounded (symbol : String) (now : ℕ) (r1 r2 : ℚ)
    (yahoo : String → Except String Quote) (h0 : 0 ≤ r1) (h1 : r1 < 1) :
    fetchPriceM yahoo now r1 r2 symbol "mock" = .ok (fetchMockPrice symbol now r1 r2) ∧
    95/100 * mockBasePrice symbol ≤ (fetchMockPrice symbol now r1 r2).price ∧
    (fetchMockPrice symbol now r1 r2).price ≤ 105/100 * mockBasePrice symbol ∧
    (basePrices symbol = none → mockBasePrice symbol = 100 + 10 * symbol.length) := by
  obtain ⟨hlo, hhi⟩ := mockPrice_bounds symbol now r1 r2 h0 h1
  refine ⟨?_, hlo, hhi, fun h => ?_⟩
  · unfold fetchPriceM
    rw [show jsToLower "mock" = "mock" from by decide]
    rfl
  · simp [mockBasePrice, h]

/-- Witness for C3 at the table symbol `"AAPL"` and the random draw 1/2. -/
theorem mock_never_fails_price_bounded_witness :
    (0:ℚ) ≤ 1/2 ∧ (1/2:ℚ) < 1 ∧
    (fetchPriceM cYahooDown 0 (1/2) (1/2) "AAPL" "mock"
        = .ok (fetchMockPrice "AAPL" 0 (1/2) (1/2)) ∧
      95/100 * mockBasePrice "AAPL" ≤ (fetchMockPrice "AAPL" 0 (1/2) (1/2)).price ∧
      (fetchMockPrice "AAPL" 0 (1/2) (1/2)).price ≤ 105/100 * mockBasePrice "AAPL" ∧
      (basePrices "AAPL" = none → mockBasePrice "AAPL" = 100 + 10 * ("AAPL").length)) :=
  ⟨by norm_num, by norm_num,
    mock_never_fails_price_bounded "AAPL" 0 (1/2) (1/2) cYahooDown
      (by norm_num) (by norm_num)⟩

/-- C4: the symbols query string is split on runs of commas/whitespace,
each fragment trimmed, uppercased, and empty fragments dropped; in
particular `"AAPL, , TSLA"` parses to exactly `["AAPL", "TSLA"]`. -/
theorem parse_symbols_normalizes (s : String) :
    (∀ t ∈ parseSymbols s, t.length > 0) ∧
    parseSymbols "AAPL, , TSLA" = ["AAPL", "TSLA"] := by
  constructor
  · intro t ht
    have := (List.mem_filter.mp ht).2
    simpa using this
  · decide

/-- Witness for C4: the fragment `"AAPL"` of the messy input is kept and
nonempty. -/
theorem parse_symbols_normalizes_witness :
    "AAPL" ∈ parseSymbols "AAPL, , TSLA" ∧
    ("AAPL".length > 0 ∧ parseSymbols "AAPL, , TSLA" = ["AAPL", "TSLA"]) :=
  ⟨by decide,
    ⟨(parse_symbols_normalizes "AAPL, , TSLA").1 "AAPL" (by decide),
      (parse_symbols_normalizes "AAPL, , TSLA").2⟩⟩

/-- C5 fails on the code: the handler only filters empty fragments and
never deduplicates, so `symbols=AAPL,AAPL` dispatches the same symbol
twice. -/
theorem dedup_counterexample :
    (handlePrices cAllOk (some "AAPL,AAPL")).1 = ["AAPL", "AAPL"] ∧
    List.count "AAPL" (handlePrices cAllOk (some "AAPL,AAPL")).1 = 2 := by
  decide

/-- C5 as amended: malformed symbols (empty after trimming) are filtered
out before dispatch, but duplicates are kept and each occurrence is
dispatched. -/
theorem empties_filtered_duplicates_kept (fetch : String → Except String Quote)
    (s : String) :
    (∀ t ∈ (handlePrices fetch (some s)).1, t.length > 0) ∧
    (handlePrices cAllOk (some "AAPL,AAPL")).1 = ["AAPL", "AAPL"] := by
  constructor
  · intro t ht
    by_cases hs : s = ""
    · simp [handlePrices, hs] at ht
    · simp only [handlePrices, if_neg hs] at ht
      have := (List.mem_filter.mp ht).2
      simpa using this
  · decide

/-- Witness for the amended C5: the dispatched occurrence `"AAPL"` is
nonempty. -/
theorem empties_filtered_duplicates_kept_witness :
    "AAPL" ∈ (handlePrices cAllOk (some "AAPL,AAPL")).1 ∧
    ("AAPL".length > 0 ∧
      (handlePrices cAllOk (some "AAPL,AAPL")).1 = ["AAPL", "AAPL"]) :=
  ⟨by decide,
    ⟨(empties_filtered_duplicates_kept cAllOk "AAPL,AAPL").1 "AAPL" (by decide),
      (empties_filtered_duplicates_kept cAllOk "AAPL,AAPL").2⟩⟩

/-- C6 fails on the code: when every symbol succeeds the handler writes
`undefined` for `errors` (dropped from the JSON body), not an empty list —
here a fully successful request yields a 200 body with no errors field. -/
theorem errors_field_counterexample :
    (handlePrices cAllOk (some "AAPL")).2.errorsField = none ∧
    (handlePrices cAllOk (some "AAPL")).2.status = 200 := by
  decide

/-- C6 as amended: the success body carries the errors list exactly when
some symbol failed; when every symbol succeeds the field is omitted
(`undefined`) rather than present as an empty list. -/
theorem errors_field_conditional (fetch : String → Except String Quote)
    (s : String) (hs : s ≠ "") :
    ∃ body, (handlePrices fetch (some s)).2 = PricesResult.ok body ∧
      body.errors = (if (classify fetch (parseSymbols s)).2.length > 0
                     then some ((classify fetch (parseSymbols s)).2) else none) ∧
      ((classify fetch (parseSymbols s)).2.length = 0 → body.errors = none) := by
  simp only [handlePrices, if_neg hs]
  refine ⟨_, rfl, rfl, fun h => ?_⟩
  simp [h]

/-- Witness for the amended C6 at a fully successful single-symbol batch. -/
theorem errors_field_conditional_witness :
    "AAPL" ≠ "" ∧
    (∃ body, (handlePrices cAllOk (some "AAPL")).2 = PricesResult.ok body ∧
      body.errors = (if (classify cAllOk (parseSymbols "AAPL")).2.length > 0
                     then some ((classify cAllOk (parseSymbols "AAPL")).2) else none) ∧
      ((classify cAllOk (parseSymbols "AAPL")).2.length = 0 → body.errors = none)) :=
  ⟨by decide, errors_field_conditional cAllOk "AAPL" (by decide)⟩

/-- C7: with the symbols query parameter absent, the handler answers 400
with error code MISSING_SYMBOLS and dispatches no fetch at all. -/
theorem missing_symbols_400 (fetch : String → Except String Quote) :
    (handlePrices fetch none).2
      = PricesResult.badRequest "MISSING_SYMBOLS" missingSymbolsMessage ∧
    (handlePrices fetch none).2.status = 400 ∧
    (handlePrices fetch none).1 = [] :=
  ⟨rfl, rfl, rfl⟩

/-- C8: the single-price endpoint uppercases the symbol before lookup,
returns the quote on success, and on any lookup failure answers 400 with an
error-code/message JSON body. -/
theorem single_price_endpoint (fetch : String → String → Except String Quote)
    (p : String) (srcQ : Option String) :
    (∀ q, fetch (jsToUpper p) (sourceOrDefault srcQ) = .ok q →
      handlePrice fetch p srcQ = .ok q ∧
      (handlePrice fetch p srcQ).status = 200) ∧
    (∀ e, fetch (jsToUpper p) (sourceOrDefault srcQ) = .error e →
      (handlePrice fetch p srcQ).status = 400 ∧
      handlePrice fetch p srcQ
        = PriceResult.badRequest "PRICE_FETCH_FAILED"
            ("Failed to fetch price for " ++ jsToUpper p ++ ": " ++ e)) := by
  constructor
  · intro q hq
    constructor
    · simp [handlePrice, hq]
    · simp [handlePrice, hq, PriceResult.status]
  · intro e he
    constructor
    · simp [handlePrice, he, PriceResult.status]
    · simp [handlePrice, he]

/-- Witness for C8: a lowercased path parameter is uppercased, one request
succeeding with the quote and one failing with the 400 body. -/
theorem single_price_endpoint_witness :
    cFetchBoth (jsToUpper "aapl") (sourceOrDefault (some "mock"))
      = .ok (fetchMockPrice "AAPL" 0 (1/2) (1/2)) ∧
    (handlePrice cFetchBoth "aapl" (some "mock")
        = .ok (fetchMockPrice "AAPL" 0 (1/2) (1/2)) ∧
      (handlePrice cFetchBoth "aapl" (some "mock")).status = 200) ∧
    cFetchBoth (jsToUpper "bad") (sourceOrDefault none)
      = .error "Yahoo API error: network down" ∧
    ((handlePrice cFetchBoth "bad" none).status = 400 ∧
      handlePrice cFetchBoth "bad" none
        = PriceResult.badRequest "PRICE_FETCH_FAILED"
            ("Failed to fetch price for " ++ jsToUpper "bad" ++ ": "
              ++ "Yahoo API error: network down")) :=
  ⟨rfl,
    (single_price_endpoint cFetchBoth "aapl" (some "mock")).1 _ rfl,
    rfl,
    (single_price_endpoint cFetchBoth "bad" none).2 _ rfl⟩

/-- C9: GET /groups never reads the request, so any two requests receive
identical bodies, the status is always 200, and the body is the static
groups table. -/
theorem groups_deterministic_200 :
    (∀ r1 r2 : HttpRequest, handleGroups r1 = handleGroups r2) ∧
    (∀ r : HttpRequest, (handleGroups r).1 = 200 ∧ (handleGroups r).2 = groups) :=
  ⟨fun _ _ => rfl, fun _ => ⟨rfl, rfl⟩⟩

/-- C10: a source whose lowercase form is neither yahoo nor mock falls back
to the mock generator (so the selector never makes the request fail), and
an absent source parameter defaults to yahoo. -/
theorem unknown_source_falls_back (source : String)
    (h1 : jsToLower source ≠ "yahoo") (h2 : jsToLower source ≠ "mock")
    (yahoo : String → Except String Quote) (now : ℕ) (r1 r2 : ℚ)
    (symbol : String) :
    fetchPriceM yahoo now r1 r2 symbol source
      = .ok (fetchMockPrice symbol now r1 r2) ∧
    sourceOrDefault none = "yahoo" := by
  constructor
  · unfold fetchPriceM
    split <;> simp_all
  · rfl

/-- Witness for C10 at the unrecognized source `"alpaca"`. -/
theorem unknown_source_falls_back_witness :
    jsToLower "alpaca" ≠ "yahoo" ∧ jsToLower "alpaca" ≠ "mock" ∧
    (fetchPriceM cYahooDown 0 (1/2) (1/2) "AAPL" "alpaca"
        = .ok (fetchMockPrice "AAPL" 0 (1/2) (1/2)) ∧
      sourceOrDefault none = "yahoo") :=
  ⟨by decide, by decide,
    unknown_source_falls_back "alpaca" (by decide) (by decide)
      cYahooDown 0 (1/2) (1/2) "AAPL"⟩

end WSB
